import Mathlib

/-!
# Logout confirmation and cache-reload guard

A shallow embedding of `static/js/logout-confirmation.js`.

The script is pure event wiring, so the embedding is a small browser state
(`Browser`) together with the three functions the script defines (the
`DOMContentLoaded` listener, the click listener, the `pageshow` listener), the
top-level statements of the script, and the event dispatch of the platform that
calls them.  Closures are represented by tags (`DocumentListener`,
`ClickListener`, `WindowListener`): none of the three functions captures a
variable that changes after registration apart from `logoutLink`, which is
stored as the target of the registration.

Observable behaviour is recorded in `Browser.log` (calls made to the platform
and to the modal toolkit) and `Browser.errors` (exceptions that escaped a
listener or the script's top level).
-/

namespace LogoutConfirmation

/-! ## Values and platform objects -/

/-- Exceptions the script can raise: a read of an undeclared global, a property
read or a construction on something that does not support it, or whatever the
modal toolkit itself throws. -/
inductive JSError
  | referenceError
  | typeError
  | toolkitError (code : Nat)
  deriving DecidableEq, Repr

/-- Values the field `window.performance.navigation.type` may hold. -/
inductive JSVal
  | undefined
  | null
  | bool (b : Bool)
  | num (n : Int)
  | str (s : String)
  deriving DecidableEq, Repr

/-- Strict equality `a === b` on the values above. -/
def strictEq (a b : JSVal) : Bool := decide (a = b)

/-- The object `window.performance.navigation`. -/
structure PerformanceNavigation where
  type : JSVal
  deriving DecidableEq, Repr

/-- The object `window.performance`; `navigation` is `none` when the property
is missing (reading it yields `undefined`). -/
structure Performance where
  navigation : Option PerformanceNavigation
  deriving DecidableEq, Repr

/-- A DOM element, identified by its `id` attribute. -/
structure Element where
  id : String
  deriving DecidableEq, Repr

/-- The document as the script sees it: `document.body` as the class list of
the body element, or `none` while `document.body` is `null` (the script is
evaluated before the body has been parsed, as for a script placed in the head),
and the ids of the elements present. -/
structure Page where
  body : Option (List String)
  elementIds : List String
  deriving DecidableEq, Repr

/-- The lookup `document.getElementById(id)`: the element, or `null`. -/
def Page.getElementById (p : Page) (id : String) : Option Element :=
  if id ∈ p.elementIds then some ⟨id⟩ else none

/-- The expression `document.body.classList.contains(cls)`: reading
`.classList` of a `null` body throws. -/
def Page.bodyClassListContains (p : Page) (cls : String) : Except JSError Bool :=
  match p.body with
  | none => .error .typeError
  | some classes => .ok (decide (cls ∈ classes))

/-- The page has a body and the body carries the class `cls`. -/
def Page.bodyCarries (p : Page) (cls : String) : Bool :=
  match p.body with
  | none => false
  | some classes => decide (cls ∈ classes)

/-- The external modal toolkit: what `new bootstrap.Modal(el)` and `.show()` on
the instance built from `el` do.  Both are outside this script and are taken
as they come; either may throw. -/
structure ModalToolkit where
  construct : Option Element → Except JSError Unit
  showModal : Option Element → Except JSError Unit

/-- The global `bootstrap` at the time of a click. -/
inductive BootstrapGlobal
  | undeclared
  | withoutModal
  | withModal (tk : ModalToolkit)

/-- Calls that leave the script, in the order they are made. -/
inductive Effect
  | preventDefault
  | modalConstruct (el : Option Element)
  | modalShow (el : Option Element)
  | reload
  | navigate (target : Element)
  deriving DecidableEq, Repr

/-- The function passed to `document.addEventListener('DOMContentLoaded', ...)`. -/
inductive DocumentListener
  | onDOMContentLoaded
  deriving DecidableEq, Repr

/-- The function passed to `logoutLink.addEventListener('click', ...)`. -/
inductive ClickListener
  | logoutClick
  deriving DecidableEq, Repr

/-- The function passed to `window.addEventListener('pageshow', ...)`. -/
inductive WindowListener
  | cacheReloadGuard
  deriving DecidableEq, Repr

/-- The event object of a `pageshow` event. -/
structure PageTransitionEvent where
  persisted : Bool
  deriving DecidableEq, Repr

/-- The browser state the script reads and writes. `canceled` is the canceled
flag of the click event being dispatched. -/
structure Browser where
  page : Page
  bootstrap : BootstrapGlobal
  performance : Option Performance
  documentListeners : List DocumentListener
  windowListeners : List WindowListener
  clickListeners : List (Element × ClickListener)
  canceled : Bool
  log : List Effect
  errors : List JSError

/-- A page on which no script has run yet. -/
def Browser.fresh (page : Page) (bootstrap : BootstrapGlobal)
    (performance : Option Performance) : Browser :=
  { page := page, bootstrap := bootstrap, performance := performance,
    documentListeners := [], windowListeners := [], clickListeners := [],
    canceled := false, log := [], errors := [] }

/-- Append one outgoing call to the log. -/
def Browser.record (b : Browser) (e : Effect) : Browser :=
  { b with log := b.log ++ [e] }

/-- The call `e.preventDefault()` on the click event being dispatched. -/
def Browser.preventDefault (b : Browser) : Browser :=
  { b.record .preventDefault with canceled := true }

/-- The call `window.location.reload()`. -/
def Browser.reload (b : Browser) : Browser :=
  b.record .reload

/-- An exception that escapes a listener (or the top level) is reported and
the state reached so far is kept. -/
def Browser.report (r : Browser × Option JSError) : Browser :=
  match r.2 with
  | none => r.1
  | some err => { r.1 with errors := r.1.errors ++ [err] }

/-! ## The three functions of the script -/

/-- The click listener (source lines 8-12):
`e.preventDefault(); const logoutModal = new bootstrap.Modal(document.getElementById('logoutConfirmationModal')); logoutModal.show();` -/
def logoutClickHandler (b : Browser) : Browser × Option JSError :=
  let b1 := b.preventDefault
  match b1.bootstrap with
  | .undeclared => (b1, some .referenceError)
  | .withoutModal => (b1, some .typeError)
  | .withModal tk =>
    let el := b1.page.getElementById "logoutConfirmationModal"
    let b2 := b1.record (.modalConstruct el)
    match tk.construct el with
    | .error err => (b2, some err)
    | .ok _ =>
      let b3 := b2.record (.modalShow el)
      match tk.showModal el with
      | .error err => (b3, some err)
      | .ok _ => (b3, none)

/-- The `DOMContentLoaded` listener (source lines 5-14):
`const logoutLink = document.getElementById('logout-link'); if (logoutLink) logoutLink.addEventListener('click', ...)`. -/
def domContentLoadedHandler (b : Browser) : Browser × Option JSError :=
  match b.page.getElementById "logout-link" with
  | some logoutLink =>
    ({ b with clickListeners := b.clickListeners ++ [(logoutLink, ClickListener.logoutClick)] }, none)
  | none => (b, none)

/-- The condition of the `pageshow` listener,
`event.persisted || (window.performance && window.performance.navigation.type === 2)`,
as a truth value; reading `.type` of a missing `navigation` throws. -/
def restoredFromCache (event : PageTransitionEvent) (performance : Option Performance) :
    Except JSError Bool :=
  if event.persisted then .ok true
  else
    match performance with
    | none => .ok false
    | some perf =>
      match perf.navigation with
      | none => .error .typeError
      | some nav => .ok (strictEq nav.type (.num 2))

/-- The `pageshow` listener (source lines 21-27). -/
def pageshowHandler (event : PageTransitionEvent) (b : Browser) : Browser × Option JSError :=
  match restoredFromCache event b.performance with
  | .error err => (b, some err)
  | .ok true => (b.reload, none)
  | .ok false => (b, none)

/-- The top level of the script: register the `DOMContentLoaded` listener, then
`if (document.body.classList.contains('logged-in'))` register the `pageshow`
listener. The listener registration comes first, so it stays in place when
the class test throws. -/
def script (b : Browser) : Browser × Option JSError :=
  let b1 := { b with documentListeners := b.documentListeners ++ [DocumentListener.onDOMContentLoaded] }
  match b1.page.bodyClassListContains "logged-in" with
  | .error err => (b1, some err)
  | .ok true =>
    ({ b1 with windowListeners := b1.windowListeners ++ [WindowListener.cacheReloadGuard] }, none)
  | .ok false => (b1, none)

/-! ## The platform: running the script and dispatching events -/

/-- Evaluate the script once. -/
def loadScript (b : Browser) : Browser :=
  Browser.report (script b)

/-- Run a registered document listener. -/
def runDocumentListener : DocumentListener → Browser → Browser × Option JSError
  | .onDOMContentLoaded => domContentLoadedHandler

/-- Run a registered click listener. -/
def runClickListener : ClickListener → Browser → Browser × Option JSError
  | .logoutClick => logoutClickHandler

/-- Run a registered window listener. -/
def runWindowListener : WindowListener → PageTransitionEvent → Browser →
    Browser × Option JSError
  | .cacheReloadGuard => pageshowHandler

/-- Fire `DOMContentLoaded` on the document: every listener registered at that
moment runs, an exception in one does not stop the others. -/
def fireDOMContentLoaded (b : Browser) : Browser :=
  b.documentListeners.foldl (fun acc l => Browser.report (runDocumentListener l acc)) b

/-- Dispatch a `pageshow` event on the window. -/
def dispatchPageshow (event : PageTransitionEvent) (b : Browser) : Browser :=
  b.windowListeners.foldl (fun acc l => Browser.report (runWindowListener l event acc)) b

/-- Dispatch a click on `target`: the listeners registered on it run with a
fresh event; afterwards the default action of the control (navigation to its
link) is carried out unless the event was canceled. -/
def dispatchClick (target : Element) (b : Browser) : Browser :=
  let b0 := { b with canceled := false }
  let ls := b0.clickListeners.filter (fun l => decide (l.1 = target))
  let b1 := ls.foldl (fun acc l => Browser.report (runClickListener l.2 acc)) b0
  if b1.canceled then b1 else b1.record (.navigate target)

/-- The logout control. -/
def logoutLink : Element := ⟨"logout-link"⟩

/-- The dialog container. -/
def logoutDialog : Element := ⟨"logoutConfirmationModal"⟩

/-- The state once the page has finished loading: the script has been evaluated
and `DOMContentLoaded` has fired. -/
def pageLoaded (page : Page) (bootstrap : BootstrapGlobal)
    (performance : Option Performance) : Browser :=
  fireDOMContentLoaded (loadScript (Browser.fresh page bootstrap performance))

/-- The state after `n` clicks on the logout control. -/
def clicks : Nat → Browser → Browser
  | 0, b => b
  | n + 1, b => dispatchClick logoutLink (clicks n b)

/-- The document is changed after the script ran. -/
def Browser.withPage (b : Browser) (page : Page) : Browser :=
  { b with page := page }

/-- Number of calls to `window.location.reload()` made so far. -/
def Browser.reloadCount (b : Browser) : Nat :=
  b.log.count .reload

/-- Number of `show()` calls on a modal made so far. -/
def Browser.modalShowCount (b : Browser) : Nat :=
  (b.log.filter (fun e => match e with | .modalShow _ => true | _ => false)).length

/-- Whether the control's default navigation was carried out. -/
def Browser.navigated (b : Browser) : Bool :=
  b.log.any (fun e => match e with | .navigate _ => true | _ => false)

/-- A toolkit whose constructor and `show` always succeed. -/
def workingToolkit : ModalToolkit :=
  { construct := fun _ => .ok (), showModal := fun _ => .ok () }

/-- A sample authenticated page with the logout control and the dialog. -/
def samplePage : Page :=
  { body := some ["logged-in"], elementIds := ["logout-link", "logoutConfirmationModal"] }

/-- A sample page without the marker and without the logout control. -/
def anonymousPage : Page :=
  { body := some [], elementIds := [] }

/-- A page without the logout control on which the script runs before the body
exists (`document.body` is `null`). -/
def headScriptPage : Page :=
  { body := none, elementIds := [] }

/-! ## Shared lemmas -/

/-- The state reached when the page has finished loading, field by field. -/
theorem pageLoaded_eq (page : Page) (bootstrap : BootstrapGlobal)
    (performance : Option Performance) :
    pageLoaded page bootstrap performance =
      { page := page, bootstrap := bootstrap, performance := performance,
        documentListeners := [DocumentListener.onDOMContentLoaded],
        windowListeners :=
          if page.bodyCarries "logged-in" = true then [WindowListener.cacheReloadGuard] else [],
        clickListeners :=
          if "logout-link" ∈ page.elementIds then [(logoutLink, ClickListener.logoutClick)]
          else [],
        canceled := false, log := [],
        errors := (match page.body with
          | none => [JSError.typeError]
          | some _ => []) } := by
  obtain ⟨body, ids⟩ := page
  cases body with
  | none =>
    by_cases h2 : "logout-link" ∈ ids <;>
      simp [pageLoaded, loadScript, script, fireDOMContentLoaded, Browser.fresh, Browser.report,
        runDocumentListener, domContentLoadedHandler, Page.getElementById,
        Page.bodyClassListContains, Page.bodyCarries, logoutLink, h2]
  | some classes =>
    by_cases h1 : "logged-in" ∈ classes <;>
      by_cases h2 : "logout-link" ∈ ids <;>
      simp [pageLoaded, loadScript, script, fireDOMContentLoaded, Browser.fresh, Browser.report,
        runDocumentListener, domContentLoadedHandler, Page.getElementById,
        Page.bodyClassListContains, Page.bodyCarries, logoutLink, h1, h2]

/-- A body that carries a class is there. -/
theorem body_of_bodyCarries (page : Page) (cls : String)
    (h : page.bodyCarries cls = true) : ∃ classes, page.body = some classes := by
  unfold Page.bodyCarries at h
  cases hb : page.body with
  | none => rw [hb] at h; simp at h
  | some classes => exact ⟨classes, rfl⟩

/-- With its single listener registered, a click on the logout control runs
the click listener on a fresh event and reports what escapes it. -/
theorem dispatchClick_logoutLink (b : Browser)
    (h : b.clickListeners = [(logoutLink, ClickListener.logoutClick)]) :
    dispatchClick logoutLink b
      = Browser.report (logoutClickHandler { b with canceled := false }) := by
  have hc : ∀ c : Browser, (Browser.report (logoutClickHandler c)).canceled = true := by
    intro c
    unfold logoutClickHandler Browser.report Browser.preventDefault Browser.record
    cases c.bootstrap with
    | undeclared => rfl
    | withoutModal => rfl
    | withModal tk =>
      simp only []
      cases tk.construct (c.page.getElementById "logoutConfirmationModal") with
      | error e => rfl
      | ok u =>
        simp only []
        cases tk.showModal (c.page.getElementById "logoutConfirmationModal") with
        | error e => rfl
        | ok u => rfl
  obtain ⟨pg, bs, pf, dl, wl, cl, cn, lg, er⟩ := b
  simp only at h
  subst h
  simp [dispatchClick, runClickListener, hc]

/-- The click listener touches only the event flag, the log and the reported
errors: the document, the globals and the registrations stay as they were. -/
theorem logoutClickHandler_frame (c : Browser) :
    (Browser.report (logoutClickHandler c)).page = c.page ∧
    (Browser.report (logoutClickHandler c)).bootstrap = c.bootstrap ∧
    (Browser.report (logoutClickHandler c)).performance = c.performance ∧
    (Browser.report (logoutClickHandler c)).clickListeners = c.clickListeners := by
  unfold logoutClickHandler Browser.report Browser.preventDefault Browser.record
  cases c.bootstrap with
  | undeclared => simp
  | withoutModal => simp
  | withModal tk =>
    simp only []
    cases tk.construct (c.page.getElementById "logoutConfirmationModal") with
    | error e => simp
    | ok u =>
      simp only []
      cases tk.showModal (c.page.getElementById "logoutConfirmationModal") with
      | error e => simp
      | ok u => simp

/-- Clicks on the logout control leave the document, the globals and the click
registration unchanged. -/
theorem clicks_frame (n : Nat) (b : Browser)
    (h : b.clickListeners = [(logoutLink, ClickListener.logoutClick)]) :
    (clicks n b).page = b.page ∧ (clicks n b).bootstrap = b.bootstrap ∧
    (clicks n b).performance = b.performance ∧
    (clicks n b).clickListeners = [(logoutLink, ClickListener.logoutClick)] := by
  induction n with
  | zero => exact ⟨rfl, rfl, rfl, h⟩
  | succ k ih =>
    obtain ⟨h1, h2, h3, h4⟩ := ih
    have hf := logoutClickHandler_frame { clicks k b with canceled := false }
    simp only [clicks, dispatchClick_logoutLink _ h4]
    obtain ⟨f1, f2, f3, f4⟩ := hf
    exact ⟨f1.trans h1, f2.trans h2, f3.trans h3, f4.trans h4⟩

/-- What one run of the click listener adds when the global `bootstrap` is not
declared. -/
theorem logoutClickHandler_undeclared (c : Browser) (h : c.bootstrap = .undeclared) :
    (Browser.report (logoutClickHandler c)).log = c.log ++ [Effect.preventDefault] ∧
    (Browser.report (logoutClickHandler c)).errors = c.errors ++ [JSError.referenceError] := by
  simp [logoutClickHandler, Browser.report, Browser.preventDefault, Browser.record, h]

/-- What one run of the click listener adds when `bootstrap.Modal` is not a
constructor. -/
theorem logoutClickHandler_withoutModal (c : Browser) (h : c.bootstrap = .withoutModal) :
    (Browser.report (logoutClickHandler c)).log = c.log ++ [Effect.preventDefault] ∧
    (Browser.report (logoutClickHandler c)).errors = c.errors ++ [JSError.typeError] := by
  simp [logoutClickHandler, Browser.report, Browser.preventDefault, Browser.record, h]

/-- What one run of the click listener adds when the toolkit is there: the
constructor receives the result of the lookup of the dialog, and `show` is
called when the constructor returned. -/
theorem logoutClickHandler_withModal (c : Browser) (tk : ModalToolkit)
    (h : c.bootstrap = .withModal tk) :
    (Browser.report (logoutClickHandler c)).log = c.log ++
      (match tk.construct (c.page.getElementById "logoutConfirmationModal") with
        | .error _ => [Effect.preventDefault,
            Effect.modalConstruct (c.page.getElementById "logoutConfirmationModal")]
        | .ok _ => [Effect.preventDefault,
            Effect.modalConstruct (c.page.getElementById "logoutConfirmationModal"),
            Effect.modalShow (c.page.getElementById "logoutConfirmationModal")]) ∧
    (Browser.report (logoutClickHandler c)).errors = c.errors ++
      (match tk.construct (c.page.getElementById "logoutConfirmationModal") with
        | .error e => [e]
        | .ok _ =>
          match tk.showModal (c.page.getElementById "logoutConfirmationModal") with
          | .error e => [e]
          | .ok _ => []) := by
  unfold logoutClickHandler Browser.report Browser.preventDefault Browser.record
  simp only [h]
  cases tk.construct (c.page.getElementById "logoutConfirmationModal") with
  | error e => simp
  | ok u =>
    simp only []
    cases tk.showModal (c.page.getElementById "logoutConfirmationModal") with
    | error e => simp
    | ok u => simp

/-- The `pageshow` dispatch with the guard registered is one run of the
listener. -/
theorem dispatchPageshow_guard (event : PageTransitionEvent) (b : Browser)
    (h : b.windowListeners = [WindowListener.cacheReloadGuard]) :
    dispatchPageshow event b = Browser.report (pageshowHandler event b) := by
  simp [dispatchPageshow, h, runWindowListener]

/-- The `pageshow` dispatch without a registered listener does nothing. -/
theorem dispatchPageshow_none (event : PageTransitionEvent) (b : Browser)
    (h : b.windowListeners = []) :
    dispatchPageshow event b = b := by
  simp [dispatchPageshow, h]

/-- Every run of the click listener first calls `preventDefault`; whatever it
does afterwards is a call to the modal constructor or to `show`, and the event
ends canceled, also when the run ends in an exception. -/
theorem logoutClickHandler_log (c : Browser) :
    ∃ rest : List Effect,
      (Browser.report (logoutClickHandler c)).log = c.log ++ Effect.preventDefault :: rest ∧
      (∀ e ∈ rest, (∃ el, e = Effect.modalConstruct el) ∨ (∃ el, e = Effect.modalShow el)) ∧
      (Browser.report (logoutClickHandler c)).canceled = true := by
  unfold logoutClickHandler Browser.report Browser.preventDefault Browser.record
  cases c.bootstrap with
  | undeclared => exact ⟨[], by simp⟩
  | withoutModal => exact ⟨[], by simp⟩
  | withModal tk =>
    simp only []
    cases tk.construct (c.page.getElementById "logoutConfirmationModal") with
    | error e =>
      exact ⟨[Effect.modalConstruct (c.page.getElementById "logoutConfirmationModal")], by simp⟩
    | ok u =>
      simp only []
      cases tk.showModal (c.page.getElementById "logoutConfirmationModal") with
      | error e =>
        exact ⟨[Effect.modalConstruct (c.page.getElementById "logoutConfirmationModal"),
          Effect.modalShow (c.page.getElementById "logoutConfirmationModal")], by simp⟩
      | ok u =>
        exact ⟨[Effect.modalConstruct (c.page.getElementById "logoutConfirmationModal"),
          Effect.modalShow (c.page.getElementById "logoutConfirmationModal")], by simp⟩

/-- A run of the click listener adds no navigation to the log. -/
theorem logoutClickHandler_navigated (c : Browser) :
    (Browser.report (logoutClickHandler c)).navigated = c.navigated := by
  obtain ⟨rest, hlog, hrest, _⟩ := logoutClickHandler_log c
  have hr : (rest.any fun e => match e with | .navigate _ => true | _ => false) = false := by
    rw [List.any_eq_false]
    intro e he
    rcases hrest e he with ⟨el, rfl⟩ | ⟨el, rfl⟩ <;> simp
  simp [Browser.navigated, hlog, List.any_append, hr]

/-- No number of clicks on the logout control, once its listener is registered,
puts a navigation into the log. -/
theorem clicks_navigated (n : Nat) (b : Browser)
    (h : b.clickListeners = [(logoutLink, ClickListener.logoutClick)])
    (hn : b.navigated = false) :
    (clicks n b).navigated = false := by
  induction n with
  | zero => exact hn
  | succ k ih =>
    have h4 := (clicks_frame k b h).2.2.2
    simp only [clicks, dispatchClick_logoutLink _ h4]
    rw [logoutClickHandler_navigated]
    simpa [Browser.navigated] using ih

/-! ## Cache-Reload-Guard -/

/-- C1 (P3, persisted path): on a page whose body carries `logged-in` when the
script is loaded, whatever the legacy navigation signal is (no
`window.performance`, no `navigation`, or any navigation type), one `pageshow`
event with `persisted = true` makes exactly one call to
`window.location.reload` and raises no error. -/
theorem pageshow_persisted_reloads_once (page : Page) (bootstrap : BootstrapGlobal)
    (performance : Option Performance) (h : page.bodyCarries "logged-in" = true) :
    (dispatchPageshow ⟨true⟩ (pageLoaded page bootstrap performance)).log = [Effect.reload] ∧
    (dispatchPageshow ⟨true⟩ (pageLoaded page bootstrap performance)).reloadCount = 1 ∧
    (dispatchPageshow ⟨true⟩ (pageLoaded page bootstrap performance)).errors = [] := by
  obtain ⟨classes, hb⟩ := body_of_bodyCarries page _ h
  rw [dispatchPageshow_guard _ _ (by simp [pageLoaded_eq, h])]
  simp [pageLoaded_eq, pageshowHandler, restoredFromCache, Browser.report, Browser.reload,
    Browser.record, Browser.reloadCount, hb]

/-- Witness of C1 on the sample page, with `window.performance` present but
without a `navigation` object. -/
theorem pageshow_persisted_reloads_once_witness :
    samplePage.bodyCarries "logged-in" = true ∧
    (dispatchPageshow ⟨true⟩ (pageLoaded samplePage .undeclared (some ⟨none⟩))).log
      = [Effect.reload] ∧
    (dispatchPageshow ⟨true⟩ (pageLoaded samplePage .undeclared (some ⟨none⟩))).reloadCount = 1 ∧
    (dispatchPageshow ⟨true⟩ (pageLoaded samplePage .undeclared (some ⟨none⟩))).errors = [] :=
  ⟨by decide, pageshow_persisted_reloads_once samplePage .undeclared (some ⟨none⟩) (by decide)⟩

/-- C2 (P4, legacy path): on a page whose body carries `logged-in` when the
script is loaded, one `pageshow` event with `persisted = false` while
`window.performance.navigation.type` is 2 makes exactly one call to
`window.location.reload`. -/
theorem pageshow_legacy_reloads_once (page : Page) (bootstrap : BootstrapGlobal)
    (h : page.bodyCarries "logged-in" = true) :
    (dispatchPageshow ⟨false⟩ (pageLoaded page bootstrap (some ⟨some ⟨.num 2⟩⟩))).log
      = [Effect.reload] ∧
    (dispatchPageshow ⟨false⟩
      (pageLoaded page bootstrap (some ⟨some ⟨.num 2⟩⟩))).reloadCount = 1 := by
  rw [dispatchPageshow_guard _ _ (by simp [pageLoaded_eq, h])]
  simp [pageLoaded_eq, pageshowHandler, restoredFromCache, strictEq, Browser.report,
    Browser.reload, Browser.record, Browser.reloadCount]

/-- Witness of C2 on the sample page. -/
theorem pageshow_legacy_reloads_once_witness :
    samplePage.bodyCarries "logged-in" = true ∧
    (dispatchPageshow ⟨false⟩ (pageLoaded samplePage .undeclared (some ⟨some ⟨.num 2⟩⟩))).log
      = [Effect.reload] ∧
    (dispatchPageshow ⟨false⟩
      (pageLoaded samplePage .undeclared (some ⟨some ⟨.num 2⟩⟩))).reloadCount = 1 :=
  ⟨by decide, pageshow_legacy_reloads_once samplePage .undeclared (by decide)⟩

/-- C3 (P5, non-trigger): on a page whose body carries `logged-in` when the
script is loaded, one `pageshow` event with `persisted = false` while
`window.performance.navigation.type` is any value other than 2 makes no call to
`window.location.reload` (and raises no error); and for every event and every
state of the legacy signal the number of reload calls is one when `persisted`
is true or the navigation type is 2, and zero otherwise. -/
theorem pageshow_reloads_iff (page : Page) (bootstrap : BootstrapGlobal)
    (h : page.bodyCarries "logged-in" = true) :
    (∀ v : JSVal, v ≠ .num 2 →
      (dispatchPageshow ⟨false⟩ (pageLoaded page bootstrap (some ⟨some ⟨v⟩⟩))).reloadCount = 0 ∧
      (dispatchPageshow ⟨false⟩ (pageLoaded page bootstrap (some ⟨some ⟨v⟩⟩))).errors = []) ∧
    (∀ (event : PageTransitionEvent) (performance : Option Performance),
      ((dispatchPageshow event (pageLoaded page bootstrap performance)).reloadCount = 1 ↔
        (event.persisted = true ∨ performance = some ⟨some ⟨.num 2⟩⟩)) ∧
      ((dispatchPageshow event (pageLoaded page bootstrap performance)).reloadCount = 0 ↔
        ¬ (event.persisted = true ∨ performance = some ⟨some ⟨.num 2⟩⟩))) := by
  obtain ⟨classes, hb⟩ := body_of_bodyCarries page _ h
  constructor
  · intro v hv
    rw [dispatchPageshow_guard _ _ (by simp [pageLoaded_eq, h])]
    simp [pageLoaded_eq, pageshowHandler, restoredFromCache, strictEq, Browser.report,
      Browser.reload, Browser.record, Browser.reloadCount, hv, hb]
  · intro event performance
    rw [dispatchPageshow_guard _ _ (by simp [pageLoaded_eq, h])]
    obtain ⟨persisted⟩ := event
    cases persisted with
    | true =>
      simp [pageLoaded_eq, pageshowHandler, restoredFromCache, Browser.report, Browser.reload,
        Browser.record, Browser.reloadCount]
    | false =>
      cases performance with
      | none =>
        simp [pageLoaded_eq, pageshowHandler, restoredFromCache, Browser.report,
          Browser.reloadCount]
      | some perf =>
        obtain ⟨nav⟩ := perf
        cases nav with
        | none =>
          simp [pageLoaded_eq, pageshowHandler, restoredFromCache, Browser.report,
            Browser.reloadCount]
        | some nv =>
          obtain ⟨v⟩ := nv
          by_cases hv : v = .num 2
          · subst hv
            simp [pageLoaded_eq, pageshowHandler, restoredFromCache, strictEq, Browser.report,
              Browser.reload, Browser.record, Browser.reloadCount]
          · simp [pageLoaded_eq, pageshowHandler, restoredFromCache, strictEq, Browser.report,
              Browser.reloadCount, hv]

/-- Witness of C3 on the sample page. -/
theorem pageshow_reloads_iff_witness :
    samplePage.bodyCarries "logged-in" = true ∧
    (dispatchPageshow ⟨false⟩
      (pageLoaded samplePage .undeclared (some ⟨some ⟨.num 1⟩⟩))).reloadCount = 0 :=
  ⟨by decide,
    ((pageshow_reloads_iff samplePage .undeclared (by decide)).1 (.num 1) (by decide)).1⟩

/-- C4 (P6, guard inactivity): on a page whose body does not carry `logged-in`
when the script is loaded (a body without the class, or no body yet), the
script registers no `pageshow` listener on the window, and a `pageshow` event
of any kind, under any legacy signal, makes no call to
`window.location.reload`, logs nothing and raises nothing; with a body present
there is no error at all. -/
theorem pageshow_inactive_without_marker (page : Page) (bootstrap : BootstrapGlobal)
    (performance : Option Performance) (h : page.bodyCarries "logged-in" = false) :
    (pageLoaded page bootstrap performance).windowListeners = [] ∧
    ∀ event : PageTransitionEvent,
      (dispatchPageshow event (pageLoaded page bootstrap performance)).reloadCount = 0 ∧
      (dispatchPageshow event (pageLoaded page bootstrap performance)).log = [] ∧
      (dispatchPageshow event (pageLoaded page bootstrap performance)).errors
        = (pageLoaded page bootstrap performance).errors ∧
      (page.body ≠ none →
        (dispatchPageshow event (pageLoaded page bootstrap performance)).errors = []) := by
  have hw : (pageLoaded page bootstrap performance).windowListeners = [] := by
    simp [pageLoaded_eq, h]
  refine ⟨hw, fun event => ?_⟩
  rw [dispatchPageshow_none _ _ hw]
  refine ⟨by simp [pageLoaded_eq, Browser.reloadCount], by simp [pageLoaded_eq], rfl, ?_⟩
  intro hbody
  cases hb : page.body with
  | none => exact absurd hb hbody
  | some classes => simp [pageLoaded_eq, hb]

/-- Witness of C4 on a page without the marker, with `persisted = true` and
navigation type 2. -/
theorem pageshow_inactive_without_marker_witness :
    anonymousPage.bodyCarries "logged-in" = false ∧
    (dispatchPageshow ⟨true⟩
      (pageLoaded anonymousPage .undeclared (some ⟨some ⟨.num 2⟩⟩))).reloadCount = 0 ∧
    (dispatchPageshow ⟨true⟩
      (pageLoaded anonymousPage .undeclared (some ⟨some ⟨.num 2⟩⟩))).errors = [] :=
  ⟨by decide,
    ((pageshow_inactive_without_marker anonymousPage .undeclared (some ⟨some ⟨.num 2⟩⟩)
      (by decide)).2 ⟨true⟩).1,
    ((pageshow_inactive_without_marker anonymousPage .undeclared (some ⟨some ⟨.num 2⟩⟩)
      (by decide)).2 ⟨true⟩).2.2.2 (by decide)⟩

/-! ## Logout-Intercept -/

/-- C5 (P1, intercept): on a page that contains the `logout-link` element and
the `logoutConfirmationModal` element, with the modal toolkit available and its
constructor returning for that element, after `DOMContentLoaded` has fired every
click on the logout control (the first and each later one) calls
`preventDefault`, then builds a modal from the `logoutConfirmationModal` element
and calls `show` on it exactly once; the event ends canceled and no navigation
is ever carried out. -/
theorem click_shows_modal_once (page : Page) (tk : ModalToolkit)
    (performance : Option Performance) (n : Nat)
    (hlink : "logout-link" ∈ page.elementIds)
    (hdialog : "logoutConfirmationModal" ∈ page.elementIds)
    (hctor : tk.construct (some logoutDialog) = .ok ()) :
    (dispatchClick logoutLink (clicks n (pageLoaded page (.withModal tk) performance))).log
      = (clicks n (pageLoaded page (.withModal tk) performance)).log ++
        [Effect.preventDefault, Effect.modalConstruct (some logoutDialog),
          Effect.modalShow (some logoutDialog)] ∧
    (dispatchClick logoutLink
        (clicks n (pageLoaded page (.withModal tk) performance))).modalShowCount
      = (clicks n (pageLoaded page (.withModal tk) performance)).modalShowCount + 1 ∧
    (dispatchClick logoutLink
        (clicks n (pageLoaded page (.withModal tk) performance))).canceled = true ∧
    (dispatchClick logoutLink
        (clicks n (pageLoaded page (.withModal tk) performance))).navigated = false := by
  have h0 : (pageLoaded page (.withModal tk) performance).clickListeners
      = [(logoutLink, ClickListener.logoutClick)] := by simp [pageLoaded_eq, hlink]
  have hnav0 : (pageLoaded page (.withModal tk) performance).navigated = false := by
    simp [pageLoaded_eq, Browser.navigated]
  obtain ⟨hp, hb, _, hl⟩ := clicks_frame n _ h0
  have hnav := clicks_navigated (n + 1) _ h0 hnav0
  have hcan := (logoutClickHandler_log
    { clicks n (pageLoaded page (.withModal tk) performance) with canceled := false }).choose_spec.2.2
  have hpage : (clicks n (pageLoaded page (.withModal tk) performance)).page = page := by
    rw [hp]; simp [pageLoaded_eq]
  have hboot : (clicks n (pageLoaded page (.withModal tk) performance)).bootstrap
      = .withModal tk := by
    rw [hb]; simp [pageLoaded_eq]
  have hget : page.getElementById "logoutConfirmationModal" = some logoutDialog := by
    simp [Page.getElementById, hdialog, logoutDialog]
  have key : ∀ c : Browser, c.page = page → c.bootstrap = .withModal tk →
      (Browser.report (logoutClickHandler c)).log = c.log ++
        [Effect.preventDefault, Effect.modalConstruct (some logoutDialog),
          Effect.modalShow (some logoutDialog)] := by
    intro c hcp hcb
    have hc := (logoutClickHandler_withModal c tk hcb).1
    rw [hcp, hget, hctor] at hc
    exact hc
  have hlog := key
    { clicks n (pageLoaded page (.withModal tk) performance) with canceled := false } hpage hboot
  refine ⟨?_, ?_, ?_, ?_⟩
  · rw [dispatchClick_logoutLink _ hl]; exact hlog
  · rw [dispatchClick_logoutLink _ hl]
    simp [Browser.modalShowCount, hlog, List.filter_append]
  · rw [dispatchClick_logoutLink _ hl]; exact hcan
  · exact hnav

/-- Witness of C5: the second click on the sample page with a working toolkit. -/
theorem click_shows_modal_once_witness :
    "logout-link" ∈ samplePage.elementIds ∧
    "logoutConfirmationModal" ∈ samplePage.elementIds ∧
    workingToolkit.construct (some logoutDialog) = .ok () ∧
    (dispatchClick logoutLink
        (clicks 1 (pageLoaded samplePage (.withModal workingToolkit) none))).modalShowCount
      = (clicks 1 (pageLoaded samplePage (.withModal workingToolkit) none)).modalShowCount + 1 :=
  ⟨by decide, by decide, rfl,
    (click_shows_modal_once samplePage workingToolkit none 1 (by decide) (by decide) rfl).2.1⟩

/-- C6, counterexample: a page without the logout control on which the script
runs before the body exists; running the script and firing `DOMContentLoaded`
reports a `TypeError`, raised by the top-level read of
`document.body.classList`. -/
theorem no_logout_link_head_script_raises :
    "logout-link" ∉ headScriptPage.elementIds ∧
    (pageLoaded headScriptPage .undeclared none).errors = [JSError.typeError] := by
  decide

/-- C6, amended (P2, absence safety): on a page with no `logout-link` element,
running the script and firing `DOMContentLoaded` attaches no click listener to
any element, shows no modal and makes no outgoing call; it raises no error
exactly when `document.body` exists at the time the script runs, and with
`document.body` still `null` the only error is the `TypeError` of the top-level
class test. -/
theorem no_logout_link_no_listener (page : Page) (bootstrap : BootstrapGlobal)
    (performance : Option Performance) (h : "logout-link" ∉ page.elementIds) :
    (pageLoaded page bootstrap performance).clickListeners = [] ∧
    (pageLoaded page bootstrap performance).modalShowCount = 0 ∧
    (pageLoaded page bootstrap performance).log = [] ∧
    (page.body ≠ none → (pageLoaded page bootstrap performance).errors = []) ∧
    (page.body = none →
      (pageLoaded page bootstrap performance).errors = [JSError.typeError]) := by
  refine ⟨by simp [pageLoaded_eq, h], by simp [pageLoaded_eq, Browser.modalShowCount],
    by simp [pageLoaded_eq], ?_, ?_⟩
  · intro hbody
    cases hb : page.body with
    | none => exact absurd hb hbody
    | some classes => simp [pageLoaded_eq, hb]
  · intro hb
    simp [pageLoaded_eq, hb]

/-- Witness of the amended C6 on a page with a body and without the logout
control. -/
theorem no_logout_link_no_listener_witness :
    "logout-link" ∉ anonymousPage.elementIds ∧
    (pageLoaded anonymousPage .undeclared none).clickListeners = [] ∧
    (pageLoaded anonymousPage .undeclared none).modalShowCount = 0 ∧
    (pageLoaded anonymousPage .undeclared none).log = [] ∧
    (pageLoaded anonymousPage .undeclared none).errors = [] :=
  ⟨by decide,
    (no_logout_link_no_listener anonymousPage .undeclared none (by decide)).1,
    (no_logout_link_no_listener anonymousPage .undeclared none (by decide)).2.1,
    (no_logout_link_no_listener anonymousPage .undeclared none (by decide)).2.2.1,
    (no_logout_link_no_listener anonymousPage .undeclared none (by decide)).2.2.2.1
      (by decide)⟩

/-- C7, counterexample: the sample page has the logout control and the
dialog, the global `bootstrap` is not declared; the click is not a silent
no-op, it ends in a `ReferenceError` after `preventDefault` was called. -/
theorem click_without_bootstrap_raises :
    (dispatchClick logoutLink (pageLoaded samplePage .undeclared none)).errors
      = [JSError.referenceError] ∧
    (dispatchClick logoutLink (pageLoaded samplePage .undeclared none)).log
      = [Effect.preventDefault] := by
  decide

/-- C7, amended: on a page that contains the logout control, every click calls
`preventDefault` and then uses the modal capability unguarded. When the global
`bootstrap` is not declared the click ends in a `ReferenceError`, when
`bootstrap.Modal` is not a constructor it ends in a `TypeError`, and in both
cases nothing else is called. When the toolkit is there and only the dialog
element is missing, the constructor is called with `null` and, if it returns,
`show` is called on the result; an error is reported exactly when the toolkit
throws one. -/
theorem click_uses_modal_capability_unguarded (page : Page)
    (performance : Option Performance) (n : Nat)
    (hlink : "logout-link" ∈ page.elementIds) :
    ((dispatchClick logoutLink (clicks n (pageLoaded page .undeclared performance))).log
        = (clicks n (pageLoaded page .undeclared performance)).log ++ [Effect.preventDefault] ∧
      (dispatchClick logoutLink (clicks n (pageLoaded page .undeclared performance))).errors
        = (clicks n (pageLoaded page .undeclared performance)).errors
          ++ [JSError.referenceError]) ∧
    ((dispatchClick logoutLink (clicks n (pageLoaded page .withoutModal performance))).log
        = (clicks n (pageLoaded page .withoutModal performance)).log
          ++ [Effect.preventDefault] ∧
      (dispatchClick logoutLink (clicks n (pageLoaded page .withoutModal performance))).errors
        = (clicks n (pageLoaded page .withoutModal performance)).errors
          ++ [JSError.typeError]) ∧
    (∀ tk : ModalToolkit, "logoutConfirmationModal" ∉ page.elementIds →
      (dispatchClick logoutLink (clicks n (pageLoaded page (.withModal tk) performance))).log
        = (clicks n (pageLoaded page (.withModal tk) performance)).log ++
          (match tk.construct none with
            | .error _ => [Effect.preventDefault, Effect.modalConstruct none]
            | .ok _ => [Effect.preventDefault, Effect.modalConstruct none,
                Effect.modalShow none]) ∧
      (dispatchClick logoutLink (clicks n (pageLoaded page (.withModal tk) performance))).errors
        = (clicks n (pageLoaded page (.withModal tk) performance)).errors ++
          (match tk.construct none with
            | .error e => [e]
            | .ok _ =>
              match tk.showModal none with
              | .error e => [e]
              | .ok _ => [])) := by
  have h0 : ∀ bs : BootstrapGlobal, (pageLoaded page bs performance).clickListeners
      = [(logoutLink, ClickListener.logoutClick)] := by
    intro bs; simp [pageLoaded_eq, hlink]
  have hboot : ∀ bs : BootstrapGlobal,
      (clicks n (pageLoaded page bs performance)).bootstrap = bs := by
    intro bs; rw [(clicks_frame n _ (h0 bs)).2.1]; simp [pageLoaded_eq]
  have hpage : ∀ bs : BootstrapGlobal,
      (clicks n (pageLoaded page bs performance)).page = page := by
    intro bs; rw [(clicks_frame n _ (h0 bs)).1]; simp [pageLoaded_eq]
  refine ⟨?_, ?_, ?_⟩
  · rw [dispatchClick_logoutLink _ (clicks_frame n _ (h0 _)).2.2.2]
    exact logoutClickHandler_undeclared _ (hboot .undeclared)
  · rw [dispatchClick_logoutLink _ (clicks_frame n _ (h0 _)).2.2.2]
    exact logoutClickHandler_withoutModal _ (hboot .withoutModal)
  · intro tk hdialog
    have hget : page.getElementById "logoutConfirmationModal" = none := by
      simp [Page.getElementById, hdialog]
    have key : ∀ c : Browser, c.page = page → c.bootstrap = .withModal tk →
        (Browser.report (logoutClickHandler c)).log = c.log ++
          (match tk.construct none with
            | .error _ => [Effect.preventDefault, Effect.modalConstruct none]
            | .ok _ => [Effect.preventDefault, Effect.modalConstruct none,
                Effect.modalShow none]) ∧
        (Browser.report (logoutClickHandler c)).errors = c.errors ++
          (match tk.construct none with
            | .error e => [e]
            | .ok _ =>
              match tk.showModal none with
              | .error e => [e]
              | .ok _ => []) := by
      intro c hcp hcb
      have hc := logoutClickHandler_withModal c tk hcb
      rw [hcp, hget] at hc
      exact hc
    rw [dispatchClick_logoutLink _ (clicks_frame n _ (h0 _)).2.2.2]
    exact key { clicks n (pageLoaded page (.withModal tk) performance) with canceled := false }
      (hpage _) (hboot _)

/-- Witness of the amended C7: the first click on the sample page when
`bootstrap.Modal` is not a constructor. -/
theorem click_uses_modal_capability_unguarded_witness :
    "logout-link" ∈ samplePage.elementIds ∧
    (dispatchClick logoutLink (clicks 0 (pageLoaded samplePage .withoutModal none))).errors
      = (clicks 0 (pageLoaded samplePage .withoutModal none)).errors ++ [JSError.typeError] :=
  ⟨by decide, (click_uses_modal_capability_unguarded samplePage none 0 (by decide)).2.1.2⟩

/-- C10: on a page that contains the logout control, every click (the first and
each later one), whatever the state of the modal capability and of the dialog
element and whether or not the listener ends in an exception, calls
`preventDefault` before anything else: what follows it in the log are only
calls to the modal constructor and to `show`, the event ends canceled, and no
navigation to the logout endpoint is carried out. -/
theorem click_prevents_default_first (page : Page) (bootstrap : BootstrapGlobal)
    (performance : Option Performance) (n : Nat)
    (hlink : "logout-link" ∈ page.elementIds) :
    ∃ rest : List Effect,
      (dispatchClick logoutLink (clicks n (pageLoaded page bootstrap performance))).log
        = (clicks n (pageLoaded page bootstrap performance)).log
          ++ Effect.preventDefault :: rest ∧
      (∀ e ∈ rest, (∃ el, e = Effect.modalConstruct el) ∨ (∃ el, e = Effect.modalShow el)) ∧
      (dispatchClick logoutLink
        (clicks n (pageLoaded page bootstrap performance))).canceled = true ∧
      (dispatchClick logoutLink
        (clicks n (pageLoaded page bootstrap performance))).navigated = false := by
  have h0 : (pageLoaded page bootstrap performance).clickListeners
      = [(logoutLink, ClickListener.logoutClick)] := by simp [pageLoaded_eq, hlink]
  have hnav0 : (pageLoaded page bootstrap performance).navigated = false := by
    simp [pageLoaded_eq, Browser.navigated]
  have hl := (clicks_frame n _ h0).2.2.2
  have hnav := clicks_navigated (n + 1) _ h0 hnav0
  obtain ⟨rest, h1, h2, h3⟩ := logoutClickHandler_log
    { clicks n (pageLoaded page bootstrap performance) with canceled := false }
  refine ⟨rest, ?_, h2, ?_, hnav⟩
  · rw [dispatchClick_logoutLink _ hl]; exact h1
  · rw [dispatchClick_logoutLink _ hl]; exact h3

/-- Witness of C10: the first click on the sample page without the global
`bootstrap`. -/
theorem click_prevents_default_first_witness :
    "logout-link" ∈ samplePage.elementIds ∧
    ∃ rest : List Effect,
      (dispatchClick logoutLink (clicks 0 (pageLoaded samplePage .undeclared none))).log
        = (clicks 0 (pageLoaded samplePage .undeclared none)).log
          ++ Effect.preventDefault :: rest ∧
      (∀ e ∈ rest, (∃ el, e = Effect.modalConstruct el) ∨ (∃ el, e = Effect.modalShow el)) ∧
      (dispatchClick logoutLink
        (clicks 0 (pageLoaded samplePage .undeclared none))).canceled = true ∧
      (dispatchClick logoutLink
        (clicks 0 (pageLoaded samplePage .undeclared none))).navigated = false :=
  ⟨by decide, click_prevents_default_first samplePage .undeclared none 0 (by decide)⟩

/-! ## Cache-Reload-Guard: the legacy signal and the time of the check -/

/-- C8, the code at the failing input: the sample page carries `logged-in`,
`persisted` is false, `window.performance` is present but has no `navigation`
object. The guard `window.performance &&` covers only the first hop, so
reading `.type` of the missing `navigation` ends the listener in a `TypeError`
(no reload is made); on the same page with `window.performance` absent the
guard works and the listener ends without error and without reload. -/
theorem pageshow_without_navigation_raises :
    samplePage.bodyCarries "logged-in" = true ∧
    (dispatchPageshow ⟨false⟩ (pageLoaded samplePage .undeclared (some ⟨none⟩))).errors
      = [JSError.typeError] ∧
    (dispatchPageshow ⟨false⟩
      (pageLoaded samplePage .undeclared (some ⟨none⟩))).reloadCount = 0 ∧
    (dispatchPageshow ⟨false⟩ (pageLoaded samplePage .undeclared none)).errors = [] ∧
    (dispatchPageshow ⟨false⟩ (pageLoaded samplePage .undeclared none)).reloadCount = 0 := by
  decide

/-- C9: the marker is read once, when the script runs. For a document changed
to any `page2` after loading, the number of reload calls of a later `pageshow`
event is the one obtained without the change, and it is one exactly when the
body carried `logged-in` at load time and the event is restored (`persisted`,
or navigation type 2), zero otherwise. In particular, with `persisted = true`:
marker present at load gives one reload whatever the classes are at the time of
the event, marker absent at load gives none. -/
theorem marker_checked_once (page page2 : Page) (bootstrap : BootstrapGlobal)
    (performance : Option Performance) (event : PageTransitionEvent) :
    (dispatchPageshow event ((pageLoaded page bootstrap performance).withPage page2)).reloadCount
      = (dispatchPageshow event (pageLoaded page bootstrap performance)).reloadCount ∧
    (dispatchPageshow event ((pageLoaded page bootstrap performance).withPage page2)).reloadCount
      = (if page.bodyCarries "logged-in" = true ∧
            (event.persisted = true ∨ performance = some ⟨some ⟨.num 2⟩⟩) then 1 else 0) ∧
    (page.bodyCarries "logged-in" = true →
      (dispatchPageshow ⟨true⟩
        ((pageLoaded page bootstrap performance).withPage page2)).reloadCount = 1) ∧
    (page.bodyCarries "logged-in" = false →
      (dispatchPageshow ⟨true⟩
        ((pageLoaded page bootstrap performance).withPage page2)).reloadCount = 0) := by
  have hmain : ∀ (pg : Page) (ev : PageTransitionEvent),
      (dispatchPageshow ev ((pageLoaded page bootstrap performance).withPage pg)).reloadCount
        = (if page.bodyCarries "logged-in" = true ∧
            (ev.persisted = true ∨ performance = some ⟨some ⟨.num 2⟩⟩) then 1 else 0) := by
    intro pg ev
    by_cases h : page.bodyCarries "logged-in" = true
    · rw [dispatchPageshow_guard _ _ (by simp [pageLoaded_eq, Browser.withPage, h])]
      obtain ⟨persisted⟩ := ev
      cases persisted with
      | true =>
        simp [pageLoaded_eq, Browser.withPage, pageshowHandler, restoredFromCache,
          Browser.report, Browser.reload, Browser.record, Browser.reloadCount, h]
      | false =>
        cases performance with
        | none =>
          simp [pageLoaded_eq, Browser.withPage, pageshowHandler, restoredFromCache,
            Browser.report, Browser.reloadCount]
        | some perf =>
          obtain ⟨nav⟩ := perf
          cases nav with
          | none =>
            simp [pageLoaded_eq, Browser.withPage, pageshowHandler, restoredFromCache,
              Browser.report, Browser.reloadCount]
          | some nv =>
            obtain ⟨v⟩ := nv
            by_cases hv : v = .num 2
            · subst hv
              simp [pageLoaded_eq, Browser.withPage, pageshowHandler, restoredFromCache,
                strictEq, Browser.report, Browser.reload, Browser.record, Browser.reloadCount, h]
            · simp [pageLoaded_eq, Browser.withPage, pageshowHandler, restoredFromCache,
                strictEq, Browser.report, Browser.reloadCount, hv]
    · rw [dispatchPageshow_none _ _ (by simp [pageLoaded_eq, Browser.withPage, h])]
      simp [pageLoaded_eq, Browser.withPage, Browser.reloadCount, h]
  have hsame : (pageLoaded page bootstrap performance).withPage page
      = pageLoaded page bootstrap performance := by
    simp [pageLoaded_eq, Browser.withPage]
  refine ⟨?_, hmain page2 event, ?_, ?_⟩
  · rw [hmain page2 event, ← hsame, hmain page event]
  · intro h; rw [hmain]; simp [h]
  · intro h; rw [hmain]; simp [h]

/-- Witness of C9: the marker is removed after loading (one reload), and the
marker is added after loading (no reload). -/
theorem marker_checked_once_witness :
    (samplePage.bodyCarries "logged-in" = true ∧ anonymousPage.bodyCarries "logged-in" = false) ∧
    (dispatchPageshow ⟨true⟩
      ((pageLoaded samplePage .undeclared none).withPage anonymousPage)).reloadCount = 1 ∧
    (dispatchPageshow ⟨true⟩
      ((pageLoaded anonymousPage .undeclared none).withPage samplePage)).reloadCount = 0 :=
  ⟨⟨by decide, by decide⟩,
    (marker_checked_once samplePage anonymousPage .undeclared none ⟨true⟩).2.2.1 (by decide),
    (marker_checked_once anonymousPage samplePage .undeclared none ⟨true⟩).2.2.2 (by decide)⟩

end LogoutConfirmation
